import Mathlib

/-!
# Verification of the ETL medallion pipeline repository

Shallow embedding of the repository's Python sources:

* `etl_medallion.py` — the bronze/silver/gold SQL pipeline (`run_query`,
  `bronze_layer`, `silver_layer`, `gold_layer`, `run_etl`,
  `setup_gcp_credentials`).
* `main.py` — the Flask HTTP façade (`trigger_etl_endpoint`).
* `data_generator.py` — the synthetic data generator
  (`generate_employees`, `generate_sales`, `setup_gcp_credentials`).

The BigQuery warehouse is modelled by a function
`submit : String → Except String Unit` giving, for each submitted statement
(identified by its `desc` label from the source), either normal completion
or a raised exception with an error message.  Randomness is modelled by
oracles supplying each draw that the Python code obtains from `random` /
`faker`; the contract of each random primitive (e.g. `random.uniform(a, b)`
returns a value in `[a, b]`) appears as a hypothesis on the oracle.
-/

namespace EtlRepo

/-- Warehouse behaviour: for each statement (identified by its `desc`
label), whether `bq.query(sql); job.result()` completes normally or raises
an exception carrying an error message. -/
abbrev Submit := String → Except String Unit

/-- `run_query` from `etl_medallion.py`: submits the statement inside a
`try`/`except`; returns `True` on success and `False` when the exception is
caught (the error is only printed). -/
def run_query (submit : Submit) (desc : String) : Bool :=
  match submit desc with
  | Except.ok _ => true
  | Except.error _ => false

/-- The three bronze-layer load statements (the `tables` dict of
`bronze_layer`), identified by their `desc` labels, in iteration order. -/
def bronzeStmts : List String :=
  ["Cargando employees", "Cargando products", "Cargando sales"]

/-- The three silver-layer transformation statements of `silver_layer`,
identified by their `desc` labels, in order. -/
def silverStmts : List String :=
  ["Limpiando empleados", "Filtrando productos", "Validando ventas"]

/-- The three gold-layer analytics statements of `gold_layer`, identified
by their `desc` labels, in order. -/
def goldStmts : List String :=
  ["Enriqueciendo ventas", "Métricas de productos", "Resumen mensual"]

/-- Common shape of `bronze_layer`/`silver_layer`/`gold_layer` in
`etl_medallion.py`: first the `CREATE SCHEMA` statement with an early
`return False` on failure, then a loop that runs every remaining statement
unconditionally, setting `success = False` on each failure (no `break`).
Returns the `success` flag together with the list of statements actually
submitted, in order. -/
def layer_run (submit : Submit) (schema : String) (stmts : List String) :
    Bool × List String :=
  if run_query submit schema = false then (false, [schema])
  else stmts.foldl (fun acc d => (acc.1 && run_query submit d, acc.2 ++ [d]))
    (true, [schema])

/-- `bronze_layer` from `etl_medallion.py`. -/
def bronze_layer (submit : Submit) : Bool × List String :=
  layer_run submit "Dataset bronze" bronzeStmts

/-- `silver_layer` from `etl_medallion.py`. -/
def silver_layer (submit : Submit) : Bool × List String :=
  layer_run submit "Dataset silver" silverStmts

/-- `gold_layer` from `etl_medallion.py`. -/
def gold_layer (submit : Submit) : Bool × List String :=
  layer_run submit "Dataset gold" goldStmts

/-- `run_etl` from `etl_medallion.py`: runs the three layers in order and
`break`s out of the loop on the first layer reporting failure.  Returns the
final `overall_success` flag together with the list of statements submitted
through `run_query` across the whole run, in order.  (The read-only queries
of `verify_results`, issued on the success path, do not go through
`run_query` and are not pipeline-stage statements; they are modelled
separately by `verify_resultsE`.) -/
def run_etl (submit : Submit) : Bool × List String :=
  let b := bronze_layer submit
  if b.1 = false then (false, b.2)
  else
    let s := silver_layer submit
    if s.1 = false then (false, b.2 ++ s.2)
    else
      let g := gold_layer submit
      if g.1 = false then (false, b.2 ++ s.2 ++ g.2)
      else (true, b.2 ++ s.2 ++ g.2)

/-!
## Exception-level model of the pipeline

`run_etlE` re-expresses the body of `run_etl` in the `Except` monad, where
a raised, *uncaught* exception would surface as `Except.error`.  The only
operation that can raise is the warehouse submission; `run_queryE` shows
the `try`/`except` of `run_query` catching it.  The theorems prove that
`run_etlE` never produces `Except.error` — i.e. the Python `run_etl`
always returns normally (returning `None`). -/

/-- `run_query` in the `Except` monad: the `try`/`except` catches the
submission's exception and converts it to `False`. -/
def run_queryE (submit : Submit) (desc : String) : Except String Bool :=
  match submit desc with
  | Except.ok _ => Except.ok true
  | Except.error _ => Except.ok false

/-- A pipeline layer in the `Except` monad (same control flow as
`layer_run`). -/
def layer_runE (submit : Submit) (schema : String) (stmts : List String) :
    Except String Bool := do
  let ok0 ← run_queryE submit schema
  if ok0 = false then pure false
  else stmts.foldlM (fun acc d => do
    let r ← run_queryE submit d
    pure (acc && r)) true

/-- One dataset iteration of `verify_results` from `etl_medallion.py`: the
metadata query and the per-table row counts are all wrapped in
`try`/`except` blocks that print and continue, so the iteration completes
normally whether or not the underlying queries raise. -/
def verify_datasetE (submit : Submit) (dataset : String) :
    Except String Unit :=
  match submit ("verify " ++ dataset) with
  | Except.ok _ => Except.ok ()
  | Except.error _ => Except.ok ()

/-- `verify_results` from `etl_medallion.py`: iterates the three datasets,
each protected by its own `try`/`except`. -/
def verify_resultsE (submit : Submit) : Except String Unit := do
  verify_datasetE submit "bronze"
  verify_datasetE submit "silver"
  verify_datasetE submit "gold"

/-- `run_etl` from `etl_medallion.py` in the `Except` monad: the Python
function's return value is `None` (`Unit`); an uncaught exception in its
body would surface as `Except.error`.  On a layer failure it prints and
breaks; on overall success it calls `verify_results` and prints the
summary. -/
def run_etlE (submit : Submit) : Except String Unit := do
  let b ← layer_runE submit "Dataset bronze" bronzeStmts
  if b = false then pure ()
  else do
    let s ← layer_runE submit "Dataset silver" silverStmts
    if s = false then pure ()
    else do
      let g ← layer_runE submit "Dataset gold" goldStmts
      if g = false then pure ()
      else do
        verify_resultsE submit
        pure ()

/-!
## HTTP façade (`main.py`)
-/

/-- The JSON response of the `/trigger-etl` route, as far as the claims
are concerned: HTTP status code, the `status` field, the `message` field,
the `layers_processed` field (success branch only) and the `suggestion`
field (error branch only). -/
structure HttpResponse where
  status : Nat
  body_status : String
  message : String
  layers_processed : List String
  suggestion : Option String
  deriving DecidableEq, Repr

/-- The `try`/`except` of `trigger_etl_endpoint` in `main.py` around the
`run_etl()` call: normal return yields the 200 success response, a raised
exception yields the 500 error response carrying the exception's message
and the fixed suggestion string. -/
def trigger_handler (r : Except String Unit) : HttpResponse :=
  match r with
  | Except.ok _ =>
      { status := 200
        body_status := "success"
        message := "ETL pipeline completed successfully"
        layers_processed := ["bronze", "silver", "gold"]
        suggestion := none }
  | Except.error e =>
      { status := 500
        body_status := "error"
        message := e
        layers_processed := []
        suggestion := some "Verifica logs de BigQuery y permisos de GCS" }

/-- `trigger_etl_endpoint` from `main.py`: runs `run_etl` synchronously
inside the request and maps its outcome through the `try`/`except`. -/
def trigger_etl_endpoint (submit : Submit) : HttpResponse :=
  trigger_handler (run_etlE submit)

/-!
## Credential resolver (`setup_gcp_credentials`)

The function appears, with identical control flow, in `etl_medallion.py`
(BigQuery client) and `data_generator.py` (Storage client); one model
covers both.  The process environment and filesystem are modelled
explicitly. -/

/-- Outcome of `setup_gcp_credentials`. -/
inductive CredResult where
  /-- Ambient default credentials (the `K_SERVICE` / Cloud Run branch). -/
  | ambientClient : CredResult
  /-- Client obtained after pointing `GOOGLE_APPLICATION_CREDENTIALS` at
  an existing credentials file. -/
  | fileClient (path : String) : CredResult
  /-- Client built from the service-account info parsed out of the
  `GOOGLE_CREDENTIALS_JSON` environment variable. -/
  | jsonClient : CredResult
  /-- `json.loads` / credential parsing raised; the `except` handler
  prints and re-raises. -/
  | parseError : CredResult
  /-- The generic `raise Exception("No se encontraron credenciales")`. -/
  | credError : CredResult
  deriving DecidableEq, Repr

/-- The process environment and filesystem as `setup_gcp_credentials`
observes them. -/
structure Env where
  /-- `os.getenv('K_SERVICE')`. -/
  kService : Option String
  /-- `os.getenv('GOOGLE_APPLICATION_CREDENTIALS')`. -/
  googleAppCreds : Option String
  /-- `os.getenv('GOOGLE_CREDENTIALS_JSON')`. -/
  googleCredsJson : Option String
  /-- `os.path.exists`. -/
  fileExists : String → Bool
  /-- Whether `json.loads` plus `from_service_account_info` succeed on a
  given blob. -/
  jsonParses : String → Bool

/-- Python truthiness of an optional environment-variable value: present
and non-empty. -/
def truthy : Option String → Bool
  | none => false
  | some s => !(s == "")

/-- The `paths` list of `setup_gcp_credentials`: two fixed literals, then
the value of `GOOGLE_APPLICATION_CREDENTIALS` (which may be absent). -/
def credentialPaths (env : Env) : List (Option String) :=
  [some "service-account-key.json", some "./service-account-key.json",
   env.googleAppCreds]

/-- The `for path in paths` loop: skip a `None` or empty entry
(`if path and os.path.exists(path)`), return the first entry that names an
existing file. -/
def scanPaths (fe : String → Bool) : List (Option String) → Option String
  | [] => none
  | p :: rest =>
    match p with
    | none => scanPaths fe rest
    | some s => if s ≠ "" ∧ fe s then some s else scanPaths fe rest

/-- `setup_gcp_credentials` from `etl_medallion.py` /
`data_generator.py`. -/
def setup_gcp_credentials (env : Env) : CredResult :=
  if truthy env.kService then CredResult.ambientClient
  else
    match scanPaths env.fileExists (credentialPaths env) with
    | some p => CredResult.fileClient p
    | none =>
      match env.googleCredsJson with
      | some s =>
          if s ≠ "" then
            (if env.jsonParses s then CredResult.jsonClient
             else CredResult.parseError)
          else CredResult.credError
      | none => CredResult.credError

/-- Candidate paths in the spec's phrasing: the two fixed local paths,
then the path named by the credentials-path environment variable (when
set). -/
def specCandidatePaths (env : Env) : List String :=
  ["service-account-key.json", "./service-account-key.json"] ++
    (match env.googleAppCreds with
     | some s => [s]
     | none => [])

/-- Modelled from the spec's words (§4.2), for comparison with
`setup_gcp_credentials`: (a) ambient credentials when the managed-runtime
marker is set; (b) otherwise the first candidate path that exists; (c)
otherwise the JSON-blob environment variable; else the generic credential
error. -/
def credResolutionSpec (env : Env) : CredResult :=
  if truthy env.kService then CredResult.ambientClient
  else
    match (specCandidatePaths env).find? env.fileExists with
    | some p => CredResult.fileClient p
    | none =>
      if truthy env.googleCredsJson then
        (if env.jsonParses (env.googleCredsJson.getD "") then
          CredResult.jsonClient
         else CredResult.parseError)
      else CredResult.credError

/-!
## Pipeline lemmas
-/

/-- Closed form of the statement loop shared by the three layers: the
success flag is the conjunction of all statement results and the log grows
by every statement — no statement is skipped. -/
lemma foldl_layer (q : String → Bool) (l : List String) (b : Bool)
    (acc : List String) :
    (l.foldl (fun p d => (p.1 && q d, p.2 ++ [d])) (b, acc)) =
      (b && l.all q, acc ++ l) := by
  induction l generalizing b acc with
  | nil => simp
  | cons x xs ih => simp [List.foldl, ih, Bool.and_assoc]

/-- Closed form of a layer: if the schema statement fails the layer stops
with only the schema statement submitted; otherwise every remaining
statement is submitted and the layer succeeds iff all of them do. -/
lemma layer_run_eq (submit : Submit) (schema : String)
    (stmts : List String) :
    layer_run submit schema stmts =
      if run_query submit schema then
        (stmts.all (run_query submit), schema :: stmts)
      else (false, [schema]) := by
  unfold layer_run
  cases h : run_query submit schema <;> simp [h, foldl_layer]

/-- Every statement a layer submits is either its schema statement or one
of its fixed statements. -/
lemma layer_run_log_subset (submit : Submit) (schema : String)
    (stmts : List String) :
    ∀ d ∈ (layer_run submit schema stmts).2, d ∈ schema :: stmts := by
  intro d hd
  rw [layer_run_eq] at hd
  rcases h : run_query submit schema with _ | _ <;> rw [h] at hd <;>
    simp at hd <;> simp [hd]

/-- Reduction of `bind` on a normally-returning `Except` computation. -/
lemma ok_bind {ε α β : Type} (x : α) (f : α → Except ε β) :
    (Except.ok x >>= f) = f x := rfl

/-- Reduction of `pure` in the `Except` monad. -/
lemma pure_eq_ok {ε α : Type} (x : α) :
    (pure x : Except ε α) = Except.ok x := rfl

/-- `run_queryE` never propagates an exception: the `try`/`except`
converts it into the boolean that `run_query` returns. -/
lemma run_queryE_eq (submit : Submit) (d : String) :
    run_queryE submit d = Except.ok (run_query submit d) := by
  cases h : submit d <;> simp [run_queryE, run_query, h]

/-- Closed form of a monadic fold whose step returns normally. -/
lemma foldlM_ok_fun (q : String → Bool) (l : List String) (b : Bool) :
    (l.foldlM (fun acc d => Except.ok (acc && q d)) b :
        Except String Bool) =
      Except.ok (b && l.all q) := by
  induction l generalizing b with
  | nil => simp [List.foldlM, pure_eq_ok]
  | cons x xs ih =>
    have hc : (List.foldlM (fun acc d => Except.ok (acc && q d)) b
        (x :: xs) : Except String Bool) =
        List.foldlM (fun acc d => Except.ok (acc && q d)) (b && q x) xs :=
      rfl
    rw [hc, ih, List.all_cons, Bool.and_assoc]

/-- The monadic statement loop of a layer never propagates an
exception. -/
lemma foldlM_layer_ok (submit : Submit) (l : List String) (b : Bool) :
    (l.foldlM (fun acc d => do
      let r ← run_queryE submit d
      pure (acc && r)) b : Except String Bool) =
      Except.ok (b && l.all (run_query submit)) := by
  have hfun : (fun (acc : Bool) (d : String) => do
      let r ← run_queryE submit d
      pure (acc && r) : Bool → String → Except String Bool) =
      fun acc d => Except.ok (acc && run_query submit d) := by
    funext acc d
    rw [run_queryE_eq, ok_bind, pure_eq_ok]
  rw [hfun, foldlM_ok_fun]

/-- A layer in the `Except` monad returns normally, with the same success
flag as the pure model. -/
lemma layer_runE_eq (submit : Submit) (schema : String)
    (stmts : List String) :
    layer_runE submit schema stmts =
      Except.ok (layer_run submit schema stmts).1 := by
  unfold layer_runE
  simp only [run_queryE_eq, ok_bind, layer_run_eq]
  cases h : run_query submit schema
  · simp [h, pure_eq_ok]
  · simp only [h, Bool.true_eq_false, reduceIte, pure_eq_ok,
      foldlM_ok_fun, Bool.true_and]

/-- Each verification dataset iteration returns normally: its
`try`/`except` catches any query failure. -/
lemma verify_datasetE_ok (submit : Submit) (ds : String) :
    verify_datasetE submit ds = Except.ok () := by
  cases h : submit ("verify " ++ ds) <;> simp [verify_datasetE, h]

/-- `verify_results` returns normally. -/
lemma verify_resultsE_ok (submit : Submit) :
    verify_resultsE submit = Except.ok () := by
  simp [verify_resultsE, verify_datasetE_ok, ok_bind]

/-- `run_etl` returns normally for every warehouse behaviour: every
exception a statement can raise is caught inside `run_query` (or inside
`verify_results`). -/
lemma run_etlE_ok (submit : Submit) : run_etlE submit = Except.ok () := by
  unfold run_etlE
  rw [layer_runE_eq]
  rw [layer_runE_eq]
  cases h1 : (layer_run submit "Dataset bronze" bronzeStmts).1 <;>
    simp [h1, layer_runE_eq, ok_bind, pure_eq_ok]
  cases h2 : (layer_run submit "Dataset silver" silverStmts).1 <;>
    simp [h2, layer_runE_eq, ok_bind, pure_eq_ok]
  cases h3 : (layer_run submit "Dataset gold" goldStmts).1 <;>
    simp [h3, verify_resultsE_ok, ok_bind, pure_eq_ok]

/-- The statements `run_etl` submits all come from layers that were
reached: the log is the bronze log, possibly followed by the silver log,
possibly followed by the gold log — and a later layer's log is included
only if every earlier layer succeeded. -/
lemma run_etl_log (submit : Submit) :
    (run_etl submit).2 = (bronze_layer submit).2 ∧
        (bronze_layer submit).1 = false ∨
      (run_etl submit).2 =
          (bronze_layer submit).2 ++ (silver_layer submit).2 ∧
        (bronze_layer submit).1 = true ∧
        (silver_layer submit).1 = false ∨
      (run_etl submit).2 =
          (bronze_layer submit).2 ++ (silver_layer submit).2 ++
            (gold_layer submit).2 ∧
        (bronze_layer submit).1 = true ∧
        (silver_layer submit).1 = true := by
  unfold run_etl
  cases h1 : (bronze_layer submit).1 <;>
    cases h2 : (silver_layer submit).1 <;> simp [h1, h2] <;>
      cases h3 : (gold_layer submit).1 <;> simp [h3]

/-- Disjointness of the silver statement labels from the bronze ones. -/
lemma silver_not_bronze :
    ∀ d ∈ "Dataset silver" :: silverStmts,
      d ∉ "Dataset bronze" :: bronzeStmts := by decide

/-- Disjointness of the gold statement labels from the bronze ones. -/
lemma gold_not_bronze :
    ∀ d ∈ "Dataset gold" :: goldStmts,
      d ∉ "Dataset bronze" :: bronzeStmts := by decide

/-- Disjointness of the gold statement labels from the silver ones. -/
lemma gold_not_silver :
    ∀ d ∈ "Dataset gold" :: goldStmts,
      d ∉ "Dataset silver" :: silverStmts := by decide

/-- A warehouse in which exactly one statement (identified by its label)
raises and every other statement succeeds. -/
def failOn (bad : String) : Submit :=
  fun d => if d = bad then Except.error "boom" else Except.ok ()

/-- A warehouse in which every statement raises. -/
def allFail : Submit := fun _ => Except.error "boom"

/-!
## Claim theorems for the pipeline and the HTTP façade
-/

/-- Claim C1 as stated is false: when the first bronze load statement
fails, the stage reports failure but the remaining statements of its list
are still submitted — they are not skipped. -/
theorem C1_counterexample :
    (bronze_layer (failOn "Cargando employees")).1 = false ∧
    "Cargando products" ∈ (bronze_layer (failOn "Cargando employees")).2 ∧
    "Cargando sales" ∈ (bronze_layer (failOn "Cargando employees")).2 := by
  decide

/-- Claim C1 (amended): within a stage, only a failure of the initial
schema-creation statement aborts the stage early (the remaining statements
are skipped); a failure of any later statement leaves the remaining
statements submitted but makes the stage report failure, and the stage
succeeds exactly when all of its loop statements succeed.  A failed bronze
stage stops the pipeline: no silver (or, see C3, gold) statement is
submitted. -/
theorem C1_amended (submit : Submit) :
    (∀ schema stmts, layer_run submit schema stmts =
        if run_query submit schema then
          (stmts.all (run_query submit), schema :: stmts)
        else (false, [schema])) ∧
    ((bronze_layer submit).1 = false →
      ∀ d ∈ "Dataset silver" :: silverStmts, d ∉ (run_etl submit).2) := by
  refine ⟨fun schema stmts => layer_run_eq submit schema stmts, ?_⟩
  intro hb d hd hmem
  rcases run_etl_log submit with ⟨hlog, _⟩ | ⟨_, hb', _⟩ | ⟨_, hb', _⟩
  · rw [hlog] at hmem
    exact silver_not_bronze d hd (layer_run_log_subset _ _ _ d hmem)
  · rw [hb] at hb'; exact Bool.false_ne_true hb'
  · rw [hb] at hb'; exact Bool.false_ne_true hb'

/-- Witness for C1 (amended) at a concrete warehouse: when the bronze
schema statement fails, the bronze stage submits only that statement, and
no silver statement is submitted in the whole run. -/
theorem C1_witness :
    layer_run (failOn "Dataset bronze") "Dataset bronze" bronzeStmts =
      (false, ["Dataset bronze"]) ∧
    "Limpiando empleados" ∉ (run_etl (failOn "Dataset bronze")).2 :=
  ⟨((C1_amended (failOn "Dataset bronze")).1 "Dataset bronze"
      bronzeStmts).trans (by decide),
   (C1_amended (failOn "Dataset bronze")).2 (by decide)
     "Limpiando empleados" (by decide)⟩

/-- Claim C2 as stated is false: with a warehouse on which every statement
raises, the pipeline run fails (`run_etl` reports `overall_success =
False`), yet the `/trigger-etl` route responds 200 with the success body,
not 500. -/
theorem C2_counterexample :
    (run_etl allFail).1 = false ∧
    (trigger_etl_endpoint allFail).status = 200 ∧
    (trigger_etl_endpoint allFail).body_status = "success" := by
  decide

/-- Claim C2 (amended): the route answers 500 with the raised error
message and the fixed suggestion string only when an exception propagates
out of the request body; pipeline statement failures are caught inside
`run_query` and never propagate, so every request — including one whose
pipeline run fails — yields 200 with the success body listing the three
stages. -/
theorem C2_amended (submit : Submit) (e : String) :
    trigger_etl_endpoint submit =
      { status := 200
        body_status := "success"
        message := "ETL pipeline completed successfully"
        layers_processed := ["bronze", "silver", "gold"]
        suggestion := none } ∧
    trigger_handler (Except.error e) =
      { status := 500
        body_status := "error"
        message := e
        layers_processed := []
        suggestion := some "Verifica logs de BigQuery y permisos de GCS" } := by
  constructor
  · show trigger_handler (run_etlE submit) = _
    rw [run_etlE_ok]; rfl
  · rfl

/-- Claim C3: if the silver stage reports failure, no gold-stage statement
(the gold schema statement or any gold analytics statement) is submitted
in that run. -/
theorem C3_silver_fail_no_gold (submit : Submit)
    (hs : (silver_layer submit).1 = false) :
    ∀ d ∈ "Dataset gold" :: goldStmts, d ∉ (run_etl submit).2 := by
  intro d hd hmem
  rcases run_etl_log submit with ⟨hlog, _⟩ | ⟨hlog, _, _⟩ | ⟨_, _, hs'⟩
  · rw [hlog] at hmem
    exact gold_not_bronze d hd (layer_run_log_subset _ _ _ d hmem)
  · rw [hlog] at hmem
    rcases List.mem_append.1 hmem with h | h
    · exact gold_not_bronze d hd (layer_run_log_subset _ _ _ d h)
    · exact gold_not_silver d hd (layer_run_log_subset _ _ _ d h)
  · rw [hs] at hs'; exact Bool.false_ne_true hs'

/-- Witness for C3 at a concrete warehouse: failing the third silver
statement makes the silver stage fail, and the first gold statement is not
submitted. -/
theorem C3_witness :
    (silver_layer (failOn "Validando ventas")).1 = false ∧
    "Enriqueciendo ventas" ∉ (run_etl (failOn "Validando ventas")).2 :=
  ⟨by decide,
   C3_silver_fail_no_gold (failOn "Validando ventas") (by decide)
     "Enriqueciendo ventas" (by decide)⟩

/-- Claim C10: `run_etl` returns normally (returning `None`) for every
warehouse behaviour — each statement failure is caught inside `run_query`
and converted to a boolean, so no exception and no distinguishable return
value reaches the caller. -/
theorem C10_run_etl_total (submit : Submit) :
    (∀ d, run_queryE submit d = Except.ok (run_query submit d)) ∧
    run_etlE submit = Except.ok () :=
  ⟨run_queryE_eq submit, run_etlE_ok submit⟩

/-!
## Claim theorem for credential resolution
-/

/-- The path-scanning loop of `setup_gcp_credentials` returns the first
candidate path that names an existing file, provided `os.path.exists`
rejects the empty string (which it always does). -/
lemma scan_eq_find (env : Env) (hempty : env.fileExists "" = false) :
    scanPaths env.fileExists (credentialPaths env) =
      (specCandidatePaths env).find? env.fileExists := by
  have hp1 : ("service-account-key.json" : String) ≠ "" := by decide
  have hp2 : ("./service-account-key.json" : String) ≠ "" := by decide
  rcases henv : env.googleAppCreds with _ | s <;>
    cases h1 : env.fileExists "service-account-key.json" <;>
      cases h2 : env.fileExists "./service-account-key.json" <;>
        simp [credentialPaths, specCandidatePaths, henv, scanPaths,
          List.find?, h1, h2, hp1, hp2]
  all_goals
    by_cases hs : s = ""
  all_goals
    simp [hs, hempty]

/-- Claim C8: credential resolution follows the fixed order — ambient
credentials when the managed-runtime marker (`K_SERVICE`) is set; else the
first of the ordered candidate paths (two fixed local paths, then
`GOOGLE_APPLICATION_CREDENTIALS`) that exists; else the
`GOOGLE_CREDENTIALS_JSON` blob when set; else the generic credential
error.  Stated as equality with `credResolutionSpec`, the resolver written
from the spec's words, under the fact that `os.path.exists ''` is
`False`. -/
theorem C8_cred_resolution (env : Env)
    (hempty : env.fileExists "" = false) :
    setup_gcp_credentials env = credResolutionSpec env := by
  unfold setup_gcp_credentials credResolutionSpec
  cases htr : truthy env.kService
  · rw [scan_eq_find env hempty]
    cases hfind : (specCandidatePaths env).find? env.fileExists
    · rcases hj : env.googleCredsJson with _ | s
      · simp [truthy]
      · by_cases hs : s = "" <;> simp [truthy, hs]
    · simp
  · simp

/-- Witness for C8 at a concrete environment: no managed-runtime marker,
a credentials path supplied through `GOOGLE_APPLICATION_CREDENTIALS` whose
file exists, no JSON blob. -/
theorem C8_witness :
    ({ kService := none
       googleAppCreds := some "/tmp/key.json"
       googleCredsJson := none
       fileExists := fun p => p == "/tmp/key.json"
       jsonParses := fun _ => false } : Env).fileExists "" = false ∧
    setup_gcp_credentials
        { kService := none
          googleAppCreds := some "/tmp/key.json"
          googleCredsJson := none
          fileExists := fun p => p == "/tmp/key.json"
          jsonParses := fun _ => false } =
      credResolutionSpec
        { kService := none
          googleAppCreds := some "/tmp/key.json"
          googleCredsJson := none
          fileExists := fun p => p == "/tmp/key.json"
          jsonParses := fun _ => false } :=
  ⟨by decide,
   C8_cred_resolution
     { kService := none
       googleAppCreds := some "/tmp/key.json"
       googleCredsJson := none
       fileExists := fun p => p == "/tmp/key.json"
       jsonParses := fun _ => false } (by decide)⟩

/-!
## Data generator (`data_generator.py`)

Random draws are supplied by oracles.  A `random.choice(pool)` over a
fixed list is modelled as an index into that list; `random.uniform(a, b)`
as a rational whose `[a, b]` containment is a hypothesis;
`faker.date_between(start, end)` as an integer month-offset (relative to
today) whose window containment is a hypothesis.  Employee and product
records keep the fields the claims and the downstream SQL touch. -/

/-- The `DEPARTMENTS` pool of `data_generator.py`. -/
def DEPARTMENTS : List String :=
  ["Engineering", "Data Science", "Product Management", "Marketing",
   "Sales", "Customer Success", "Human Resources", "Finance",
   "Operations", "Legal", "Security", "DevOps"]

/-- The `JOB_LEVELS` pool of `data_generator.py`. -/
def JOB_LEVELS : List String :=
  ["Junior", "Mid-Level", "Senior", "Lead", "Manager", "Director", "VP"]

/-- The tech departments whose salaries get the 1.3 multiplier. -/
def techDepts : List String := ["Engineering", "Data Science", "DevOps"]

/-- The `base_salary` dict of `generate_employees`: the fixed uniform
range per job level, indexed like `JOB_LEVELS`. -/
def salaryRange (lvl : Fin 7) : ℚ × ℚ :=
  match lvl.val with
  | 0 => (50000, 70000)
  | 1 => (70000, 95000)
  | 2 => (95000, 130000)
  | 3 => (120000, 160000)
  | 4 => (140000, 180000)
  | 5 => (170000, 220000)
  | _ => (200000, 350000)

/-- The `[True] * 9 + [False]` pool behind `is_active`. -/
def activePool : List Bool :=
  [true, true, true, true, true, true, true, true, true, false]

/-- Decimal digit characters of `n`, most significant first (the digits
of Python's `str(n)` / `{:d}` formatting). -/
def decimalChars (n : ℕ) : List Char :=
  if n = 0 then [Char.ofNat 48]
  else (Nat.digits 10 n).reverse.map Nat.digitChar

/-- Python's `f'{n:0wd}'`: the decimal rendering of `n` left-padded with
zeros to width `w`. -/
def padDecimal (w n : ℕ) : String :=
  let ds := decimalChars n
  String.mk (List.replicate (w - ds.length) (Char.ofNat 48) ++ ds)

/-- Python's `round(x, 2)`: round to the nearest multiple of `0.01`.
(Python breaks exact ties to even; `round` here breaks them upward.  The
two differ only at exact ties, which does not affect any interval bound
proved below.) -/
def round2 (q : ℚ) : ℚ := ((round (q * 100) : ℤ) : ℚ) / 100

/-- The random draws consumed by one iteration of `generate_employees`:
the `random.choice(DEPARTMENTS)`, `random.choice(JOB_LEVELS)` and
`random.choice([True]*9+[False])` picks as indices into their pools, and
the `random.uniform` draw of the `base_salary` dict for each level. -/
structure EmpDraw where
  deptIdx : Fin 12
  levelIdx : Fin 7
  baseDraw : Fin 7 → ℚ
  activeIdx : Fin 10

/-- An employee record (the fields the claims and the pipeline SQL
touch). -/
structure Employee where
  employee_id : String
  department : String
  job_level : String
  salary : ℚ
  is_active : Bool
  deriving DecidableEq, Repr

/-- One iteration of the `generate_employees` loop: department, level and
salary (`base_salary[job_level] * dept_multiplier`, rounded to 2
decimals), with `employee_id = f'EMP-{emp_id:05d}'`. -/
def mkEmployee (empId : ℕ) (d : EmpDraw) : Employee :=
  let department := DEPARTMENTS.get (Fin.cast rfl d.deptIdx)
  let dept_multiplier : ℚ := if department ∈ techDepts then 13 / 10 else 1
  { employee_id := "EMP-" ++ padDecimal 5 empId
    department := department
    job_level := JOB_LEVELS.get (Fin.cast rfl d.levelIdx)
    salary := round2 (d.baseDraw d.levelIdx * dept_multiplier)
    is_active := activePool.get (Fin.cast rfl d.activeIdx) }

/-- `generate_employees` from `data_generator.py`: `emp_id` runs from `1`
to `num_employees`, each record built from that iteration's draws. -/
def generate_employees (n : ℕ) (o : ℕ → EmpDraw) : List Employee :=
  (List.range n).map (fun i => mkEmployee (i + 1) (o (i + 1)))

/-!
## Decimal rendering: round trip and injectivity
-/

/-- Numeric value of a decimal digit character. -/
def digitVal (c : Char) : ℕ := c.toNat - 48

/-- Value of a big-endian digit-character list. -/
def parseDecimal (l : List Char) : ℕ :=
  Nat.ofDigits 10 ((l.map digitVal).reverse)

/-- `digitVal` inverts `Nat.digitChar` on decimal digits. -/
lemma digitVal_digitChar {d : ℕ} (hd : d < 10) :
    digitVal (Nat.digitChar d) = d := by
  interval_cases d <;> rfl

/-- A run of zeros contributes nothing to `Nat.ofDigits`. -/
lemma ofDigits_replicate_zero (b k : ℕ) :
    Nat.ofDigits b (List.replicate k 0) = 0 := by
  induction k with
  | zero => rfl
  | succ m ih => simp [List.replicate, Nat.ofDigits_cons, ih]

/-- Parsing the zero-padded decimal rendering of `n` recovers `n`. -/
lemma parseDecimal_pad (k n : ℕ) :
    parseDecimal (List.replicate k (Char.ofNat 48) ++ decimalChars n) =
      n := by
  have hz : digitVal (Char.ofNat 48) = 0 := rfl
  have hmap : (decimalChars n).map digitVal =
      if n = 0 then [0] else (Nat.digits 10 n).reverse := by
    by_cases hn : n = 0
    · simp [decimalChars, hn, hz]
    · simp only [decimalChars, hn, if_false, List.map_map, reduceIte,
        List.map_reverse]
      have h2 : List.map (digitVal ∘ Nat.digitChar) (Nat.digits 10 n) =
          List.map id (Nat.digits 10 n) :=
        List.map_congr_left (fun d hd =>
          (digitVal_digitChar (Nat.digits_lt_base (by norm_num) hd)).trans
            rfl)
      rw [h2, List.map_id]
  unfold parseDecimal
  rw [List.map_append, List.map_replicate, hz, List.reverse_append,
    List.reverse_replicate, hmap]
  by_cases hn : n = 0
  · simp [hn, Nat.ofDigits_cons, ofDigits_replicate_zero]
  · rw [if_neg hn, List.reverse_reverse, Nat.ofDigits_append,
      ofDigits_replicate_zero, Nat.ofDigits_digits]
    ring

/-- `padDecimal w` is injective: two numbers with the same zero-padded
rendering are equal. -/
lemma padDecimal_injective (w : ℕ) : Function.Injective (padDecimal w) := by
  intro a b hab
  have hdata := congrArg String.data hab
  simp only [padDecimal, String.mk] at hdata
  have ha := parseDecimal_pad (w - (decimalChars a).length) a
  have hb := parseDecimal_pad (w - (decimalChars b).length) b
  rw [hdata] at ha
  exact ha.symm.trans hb

/-- Appending to a fixed string on the left is injective. -/
lemma string_append_left_cancel {s t u : String} (h : s ++ t = s ++ u) :
    t = u := by
  have hdata := congrArg String.data h
  have hst : (s ++ t).data = s.data ++ t.data := rfl
  have hsu : (s ++ u).data = s.data ++ u.data := rfl
  rw [hst, hsu] at hdata
  have h2 := List.append_cancel_left hdata
  exact congrArg String.mk h2

/-- Claim C4: for every count `N ≥ 0` and any draws, the employee
generator returns exactly `N` records whose `employee_id` fields are
precisely the sequential identifiers `EMP-{i:05d}` for `i = 1..N`, in
order, and these identifiers are pairwise distinct. -/
theorem C4_employee_ids (n : ℕ) (o : ℕ → EmpDraw) :
    (generate_employees n o).length = n ∧
    (generate_employees n o).map (fun e => e.employee_id) =
      (List.range n).map (fun i => "EMP-" ++ padDecimal 5 (i + 1)) ∧
    ((generate_employees n o).map (fun e => e.employee_id)).Nodup := by
  have hmap : (generate_employees n o).map (fun e => e.employee_id) =
      (List.range n).map (fun i => "EMP-" ++ padDecimal 5 (i + 1)) := by
    simp [generate_employees, List.map_map]
    intro a _
    rfl
  refine ⟨by simp [generate_employees], hmap, ?_⟩
  rw [hmap]
  apply List.Nodup.map ?_ (List.nodup_range n)
  intro a b hab
  have := padDecimal_injective 5 (string_append_left_cancel hab)
  omega

/-!
## Salary bounds (claim C5)
-/

/-- Rounding to 2 decimals respects interval bounds whose endpoints are
integer multiples of `0.01` (given here scaled by 100). -/
lemma round2_bounds {A B : ℤ} {q : ℚ} (h1 : (A : ℚ) ≤ q * 100)
    (h2 : q * 100 ≤ (B : ℚ)) :
    (A : ℚ) / 100 ≤ round2 q ∧ round2 q ≤ (B : ℚ) / 100 := by
  have hhalf : ⌊(1 : ℚ) / 2⌋ = 0 := by norm_num
  have hA : A ≤ round (q * 100) := by
    rw [round_eq]
    have hfl := Int.floor_mono
      (show (A : ℚ) + 1 / 2 ≤ q * 100 + 1 / 2 by linarith)
    have hAf : ⌊(A : ℚ) + 1 / 2⌋ = A := by
      rw [add_comm, Int.floor_add_int, hhalf, zero_add]
    rw [hAf] at hfl
    exact hfl
  have hB : round (q * 100) ≤ B := by
    rw [round_eq]
    have hfl := Int.floor_mono
      (show q * 100 + 1 / 2 ≤ (B : ℚ) + 1 / 2 by linarith)
    have hBf : ⌊(B : ℚ) + 1 / 2⌋ = B := by
      rw [add_comm, Int.floor_add_int, hhalf, zero_add]
    rw [hBf] at hfl
    exact hfl
  have hA' : (A : ℚ) ≤ ((round (q * 100) : ℤ) : ℚ) := Int.cast_le.2 hA
  have hB' : ((round (q * 100) : ℤ) : ℚ) ≤ (B : ℚ) := Int.cast_le.2 hB
  unfold round2
  constructor <;> linarith

/-- Rounding to 2 decimals respects interval bounds whose endpoints,
scaled by 100, are integers. -/
lemma round2_bounds_ex (lo hi q : ℚ) (h1 : lo ≤ q) (h2 : q ≤ hi)
    (hl : ∃ A : ℤ, (A : ℚ) = lo * 100) (hh : ∃ B : ℤ, (B : ℚ) = hi * 100) :
    lo ≤ round2 q ∧ round2 q ≤ hi := by
  obtain ⟨A, hA⟩ := hl
  obtain ⟨B, hB⟩ := hh
  have h1q : (A : ℚ) ≤ q * 100 := by rw [hA]; linarith
  have h2q : q * 100 ≤ (B : ℚ) := by rw [hB]; linarith
  have h := round2_bounds h1q h2q
  constructor
  · have := h.1
    rw [hA] at this
    linarith
  · have := h.2
    rw [hB] at this
    linarith

/-- The base-range endpoints, and the same endpoints scaled by the tech
multiplier, are exact 2-decimal values at every job level. -/
lemma salaryRange_int (lvl : Fin 7) :
    (∃ A : ℤ, (A : ℚ) = (salaryRange lvl).1 * 100) ∧
    (∃ B : ℤ, (B : ℚ) = (salaryRange lvl).2 * 100) ∧
    (∃ A : ℤ, (A : ℚ) = 13 / 10 * (salaryRange lvl).1 * 100) ∧
    (∃ B : ℤ, (B : ℚ) = 13 / 10 * (salaryRange lvl).2 * 100) := by
  fin_cases lvl
  · exact ⟨⟨5000000, by norm_num [salaryRange]⟩,
      ⟨7000000, by norm_num [salaryRange]⟩,
      ⟨6500000, by norm_num [salaryRange]⟩,
      ⟨9100000, by norm_num [salaryRange]⟩⟩
  · exact ⟨⟨7000000, by norm_num [salaryRange]⟩,
      ⟨9500000, by norm_num [salaryRange]⟩,
      ⟨9100000, by norm_num [salaryRange]⟩,
      ⟨12350000, by norm_num [salaryRange]⟩⟩
  · exact ⟨⟨9500000, by norm_num [salaryRange]⟩,
      ⟨13000000, by norm_num [salaryRange]⟩,
      ⟨12350000, by norm_num [salaryRange]⟩,
      ⟨16900000, by norm_num [salaryRange]⟩⟩
  · exact ⟨⟨12000000, by norm_num [salaryRange]⟩,
      ⟨16000000, by norm_num [salaryRange]⟩,
      ⟨15600000, by norm_num [salaryRange]⟩,
      ⟨20800000, by norm_num [salaryRange]⟩⟩
  · exact ⟨⟨14000000, by norm_num [salaryRange]⟩,
      ⟨18000000, by norm_num [salaryRange]⟩,
      ⟨18200000, by norm_num [salaryRange]⟩,
      ⟨23400000, by norm_num [salaryRange]⟩⟩
  · exact ⟨⟨17000000, by norm_num [salaryRange]⟩,
      ⟨22000000, by norm_num [salaryRange]⟩,
      ⟨22100000, by norm_num [salaryRange]⟩,
      ⟨28600000, by norm_num [salaryRange]⟩⟩
  · exact ⟨⟨20000000, by norm_num [salaryRange]⟩,
      ⟨35000000, by norm_num [salaryRange]⟩,
      ⟨26000000, by norm_num [salaryRange]⟩,
      ⟨45500000, by norm_num [salaryRange]⟩⟩

/-- Claim C5: every generated employee's salary equals the level's
base-range draw times 1.3 for tech departments (Engineering, Data
Science, DevOps) and times 1.0 otherwise, rounded to 2 decimals; hence
for a non-tech department the salary lies in the level's base range and
for a tech department in `[1.3*min, 1.3*max]` of it.  The hypothesis is
the `random.uniform` contract for the `base_salary` draws. -/
theorem C5_salary (n : ℕ) (o : ℕ → EmpDraw)
    (hdraw : ∀ k lvl, (salaryRange lvl).1 ≤ (o k).baseDraw lvl ∧
      (o k).baseDraw lvl ≤ (salaryRange lvl).2) :
    ∀ k < n,
      mkEmployee (k + 1) (o (k + 1)) ∈ generate_employees n o ∧
      (mkEmployee (k + 1) (o (k + 1))).salary =
        round2 ((o (k + 1)).baseDraw (o (k + 1)).levelIdx *
          (if (mkEmployee (k + 1) (o (k + 1))).department ∈ techDepts
           then 13 / 10 else 1)) ∧
      ((mkEmployee (k + 1) (o (k + 1))).department ∉ techDepts →
        (salaryRange (o (k + 1)).levelIdx).1 ≤
            (mkEmployee (k + 1) (o (k + 1))).salary ∧
          (mkEmployee (k + 1) (o (k + 1))).salary ≤
            (salaryRange (o (k + 1)).levelIdx).2) ∧
      ((mkEmployee (k + 1) (o (k + 1))).department ∈ techDepts →
        13 / 10 * (salaryRange (o (k + 1)).levelIdx).1 ≤
            (mkEmployee (k + 1) (o (k + 1))).salary ∧
          (mkEmployee (k + 1) (o (k + 1))).salary ≤
            13 / 10 * (salaryRange (o (k + 1)).levelIdx).2) := by
  intro k hk
  obtain ⟨hlo, hhi⟩ := hdraw (k + 1) (o (k + 1)).levelIdx
  obtain ⟨he1, he2, he3, he4⟩ := salaryRange_int (o (k + 1)).levelIdx
  refine ⟨List.mem_map.2 ⟨k, List.mem_range.2 hk, rfl⟩, rfl, ?_, ?_⟩
  · intro hdep
    have hsal : (mkEmployee (k + 1) (o (k + 1))).salary =
        round2 ((o (k + 1)).baseDraw (o (k + 1)).levelIdx *
          (if (mkEmployee (k + 1) (o (k + 1))).department ∈ techDepts
           then (13 : ℚ) / 10 else 1)) := rfl
    rw [if_neg hdep, mul_one] at hsal
    rw [hsal]
    exact round2_bounds_ex (salaryRange (o (k + 1)).levelIdx).1
      (salaryRange (o (k + 1)).levelIdx).2 _ hlo hhi he1 he2
  · intro hdep
    have hsal : (mkEmployee (k + 1) (o (k + 1))).salary =
        round2 ((o (k + 1)).baseDraw (o (k + 1)).levelIdx *
          (if (mkEmployee (k + 1) (o (k + 1))).department ∈ techDepts
           then (13 : ℚ) / 10 else 1)) := rfl
    rw [if_pos hdep] at hsal
    rw [hsal]
    exact round2_bounds_ex
      (13 / 10 * (salaryRange (o (k + 1)).levelIdx).1)
      (13 / 10 * (salaryRange (o (k + 1)).levelIdx).2)
      ((o (k + 1)).baseDraw (o (k + 1)).levelIdx * (13 / 10))
      (by linarith) (by linarith) he3 he4

/-- Fixed draws for the C5 witness: department 3 (`Marketing`,
non-tech), level 0 (`Junior`), base draws at each level's lower bound. -/
def drawC5 : EmpDraw :=
  { deptIdx := 3
    levelIdx := 0
    baseDraw := fun lvl => (salaryRange lvl).1
    activeIdx := 0 }

/-- Witness for C5 at a concrete draw: a Junior Marketing employee whose
base draw sits at the lower bound has a salary within the Junior base
range. -/
theorem C5_witness :
    (salaryRange drawC5.levelIdx).1 ≤ (mkEmployee 1 drawC5).salary ∧
    (mkEmployee 1 drawC5).salary ≤ (salaryRange drawC5.levelIdx).2 :=
  (C5_salary 1 (fun _ => drawC5)
    (fun _ lvl => ⟨le_refl _,
      by fin_cases lvl <;> norm_num [drawC5, salaryRange]⟩)
    0 (by norm_num)).2.2.1 (by decide)

/-!
## Sales generator (`generate_sales` in `data_generator.py`)
-/

/-- A product record (the fields `generate_sales` and the claims
touch). -/
structure Product where
  product_id : String
  is_active : Bool
  price : ℚ
  deriving DecidableEq, Repr

/-- The two departments whose employees can be sales reps. -/
def salesDepts : List String := ["Sales", "Customer Success"]

/-- A sale record (the fields the claims touch). -/
structure Sale where
  transaction_id : String
  product_id : String
  sales_rep_id : Option String
  sale_date : ℤ
  deriving DecidableEq, Repr

/-- The random draws consumed by one iteration of the `generate_sales`
loop: the `random.random()` season draw, the `date_between` result as a
month offset relative to today, and the `random.choice` picks for product
and sales rep as indices. -/
structure SaleDraw where
  seasonDraw : ℚ
  dateDraw : ℤ
  productPick : ℕ
  repPick : ℕ

/-- Faker's relative-date strings as used in `generate_sales`, as month
offsets from today (`'-1y'` is twelve months back). -/
def parseRelMonths : String → ℤ
  | "today" => 0
  | "-2m" => -2
  | "-1y" => -12
  | _ => 0

/-- The `date_between` window (start, end) chosen for a sale, in months
relative to today: `random.random() > 0.7` (30% of the mass of a uniform
`[0,1)` draw) selects the recent window `('-2m', 'today')`, otherwise the
window is `('-1y', '-2m')`. -/
def saleDateWindow (r : ℚ) : ℤ × ℤ :=
  if 7 / 10 < r then (parseRelMonths "-2m", parseRelMonths "today")
  else (parseRelMonths "-1y", parseRelMonths "-2m")

/-- `random.choice(l)` with the pick supplied as an arbitrary natural
index: any element can be selected; on an empty sequence `choice` raises
(`none`). -/
def pyChoice {α : Type} (l : List α) (k : ℕ) : Option α :=
  l[k % l.length]?

/-- One iteration of the `generate_sales` loop.  `random.choice` over an
empty `active_products` raises, aborting the whole generator (`none`);
the sales-rep pick is guarded by the truthiness test on
`sales_employees`, which `pyChoice`'s `none`-on-empty reproduces
exactly. -/
def mkSale (saleId : ℕ) (d : SaleDraw) (salesEmployees : List Employee)
    (activeProducts : List Product) : Option Sale :=
  match pyChoice activeProducts d.productPick with
  | none => none
  | some p =>
    some { transaction_id := "TXN-" ++ padDecimal 8 saleId
           product_id := p.product_id
           sales_rep_id :=
             (pyChoice salesEmployees d.repPick).map
               (fun e => e.employee_id)
           sale_date := d.dateDraw }

/-- The `for sale_id in range(1, num_sales + 1)` loop: the first raising
iteration aborts the generator; otherwise the sales accumulate in
order. -/
def buildSales (o : ℕ → SaleDraw) (salesEmployees : List Employee)
    (activeProducts : List Product) : List ℕ → Option (List Sale)
  | [] => some []
  | i :: rest =>
    match mkSale i (o i) salesEmployees activeProducts with
    | none => none
    | some s =>
      match buildSales o salesEmployees activeProducts rest with
      | none => none
      | some ss => some (s :: ss)

/-- `generate_sales` from `data_generator.py`: filters the active
products and the Sales/Customer-Success employees once, then runs the
loop. -/
def generate_sales (numSales : ℕ) (employees : List Employee)
    (products : List Product) (o : ℕ → SaleDraw) : Option (List Sale) :=
  let activeProducts := products.filter (fun p => p.is_active)
  let salesEmployees :=
    employees.filter (fun e => decide (e.department ∈ salesDepts))
  buildSales o salesEmployees activeProducts
    ((List.range numSales).map (fun i => i + 1))

/-- What a successful `mkSale` guarantees: the product was chosen from
`active_products`, the rep field is the guarded pick over
`sales_employees`, and the date is the window draw. -/
lemma mkSale_spec {saleId : ℕ} {d : SaleDraw} {se : List Employee}
    {ap : List Product} {s : Sale}
    (h : mkSale saleId d se ap = some s) :
    (∃ q ∈ ap, s.product_id = q.product_id) ∧
    s.sales_rep_id =
      (pyChoice se d.repPick).map (fun e => e.employee_id) ∧
    s.sale_date = d.dateDraw := by
  unfold mkSale at h
  cases hc : pyChoice ap d.productPick with
  | none => rw [hc] at h; cases h
  | some q =>
    rw [hc] at h
    obtain rfl := Option.some.inj h
    have hq : q ∈ ap := by
      unfold pyChoice at hc
      exact List.getElem?_mem hc
    exact ⟨⟨q, hq, rfl⟩, rfl, rfl⟩

/-- Every sale a successful `buildSales` returns was produced by
`mkSale` at one of the loop ids. -/
lemma buildSales_spec (o : ℕ → SaleDraw) (se : List Employee)
    (ap : List Product) :
    ∀ (ids : List ℕ) (sales : List Sale),
      buildSales o se ap ids = some sales →
      ∀ s ∈ sales, ∃ i ∈ ids, mkSale i (o i) se ap = some s := by
  intro ids
  induction ids with
  | nil =>
    intro sales h s hs
    have h' : some ([] : List Sale) = some sales := h
    obtain rfl := Option.some.inj h'
    cases hs
  | cons i rest ih =>
    intro sales h s hs
    unfold buildSales at h
    cases hm : mkSale i (o i) se ap with
    | none => rw [hm] at h; cases h
    | some s0 =>
      rw [hm] at h
      cases hb : buildSales o se ap rest with
      | none => rw [hb] at h; cases h
      | some ss =>
        rw [hb] at h
        obtain rfl := Option.some.inj h
        rcases List.mem_cons.1 hs with hs | hs
        · exact ⟨i, List.mem_cons_self i rest, hs ▸ hm⟩
        · obtain ⟨j, hj, hmk⟩ := ih ss hb s hs
          exact ⟨j, List.mem_cons_of_mem i hj, hmk⟩

/-- Claim C6: in every successful run of the sale generator, each sale
references a product of the supplied list that is active at generation
time, and its sales rep is either unset — exactly when no supplied
employee is in Sales or Customer Success — or the identifier of such an
employee. -/
theorem C6_sale_references (numSales : ℕ) (employees : List Employee)
    (products : List Product) (o : ℕ → SaleDraw) (sales : List Sale)
    (h : generate_sales numSales employees products o = some sales) :
    ∀ s ∈ sales,
      (∃ q ∈ products, q.is_active = true ∧
        s.product_id = q.product_id) ∧
      (employees.filter (fun e => decide (e.department ∈ salesDepts)) =
          [] → s.sales_rep_id = none) ∧
      (∀ r, s.sales_rep_id = some r →
        ∃ e ∈ employees, e.department ∈ salesDepts ∧
          r = e.employee_id) := by
  intro s hs
  replace h : buildSales o
      (employees.filter (fun e => decide (e.department ∈ salesDepts)))
      (products.filter (fun q => q.is_active))
      ((List.range numSales).map (fun i => i + 1)) = some sales := h
  obtain ⟨i, _, hmk⟩ := buildSales_spec o _ _ _ sales h s hs
  obtain ⟨⟨q, hq, hqid⟩, hrep, _⟩ := mkSale_spec hmk
  refine ⟨⟨q, (List.mem_filter.1 hq).1, ?_, hqid⟩, ?_, ?_⟩
  · have := (List.mem_filter.1 hq).2
    simpa using this
  · intro hemp
    rw [hemp] at hrep
    simpa [pyChoice] using hrep
  · intro r hr
    rw [hrep] at hr
    obtain ⟨e, he, hre⟩ := Option.map_eq_some'.1 hr
    have hmem := List.getElem?_mem (by unfold pyChoice at he; exact he)
    have hf := List.mem_filter.1 hmem
    exact ⟨e, hf.1, of_decide_eq_true hf.2, hre.symm⟩

/-- Concrete inputs shared by the sales witnesses. -/
def empW : Employee :=
  { employee_id := "EMP-00001"
    department := "Sales"
    job_level := "Junior"
    salary := 50000
    is_active := true }

/-- A concrete active product. -/
def prodW : Product :=
  { product_id := "PRD-00001", is_active := true, price := 10 }

/-- A concrete inactive product. -/
def prodInactive : Product :=
  { product_id := "PRD-00002", is_active := false, price := 5 }

/-- Concrete sale draws: off-season (`seasonDraw = 0`), a date three
months back, first product and first rep. -/
def drawW : SaleDraw :=
  { seasonDraw := 0, dateDraw := -3, productPick := 0, repPick := 0 }

/-- The sale those inputs produce. -/
def saleW : Sale :=
  { transaction_id := "TXN-" ++ padDecimal 8 1
    product_id := "PRD-00001"
    sales_rep_id := some "EMP-00001"
    sale_date := -3 }

/-- Witness for C6 at concrete inputs: the generated sale references the
active product and the Sales-department employee. -/
theorem C6_witness :
    (∃ q ∈ [prodW], q.is_active = true ∧
      saleW.product_id = q.product_id) ∧
    (∀ r, saleW.sales_rep_id = some r →
      ∃ e ∈ [empW], e.department ∈ salesDepts ∧ r = e.employee_id) :=
  ⟨(C6_sale_references 1 [empW] [prodW] (fun _ => drawW) [saleW] rfl
      saleW (List.mem_singleton.2 rfl)).1,
   (C6_sale_references 1 [empW] [prodW] (fun _ => drawW) [saleW] rfl
      saleW (List.mem_singleton.2 rfl)).2.2⟩

/-- Claim C7 as stated is false: for an off-season draw the date window
the code passes to `date_between` is `('-1y', '-2m')` — it starts twelve
months before today, not fourteen. -/
theorem C7_counterexample :
    ¬(7 / 10 < (0 : ℚ)) ∧ saleDateWindow 0 = (-12, -2) ∧
      saleDateWindow 0 ≠ (-14, -2) := by
  refine ⟨by norm_num, ?_, ?_⟩ <;>
    norm_num [saleDateWindow, parseRelMonths, Prod.ext_iff]

/-- Claim C7 (amended): a sale date is drawn from the most recent
2-month window when the season draw exceeds 0.7 (30% of the uniform
`[0,1)` mass), and otherwise from the window spanning 12 months (one
year) to 2 months before today; hence every generated sale date lies in
one of those two windows. -/
theorem C7_amended (numSales : ℕ) (employees : List Employee)
    (products : List Product) (o : ℕ → SaleDraw) (sales : List Sale)
    (hdate : ∀ k, (saleDateWindow (o k).seasonDraw).1 ≤ (o k).dateDraw ∧
      (o k).dateDraw ≤ (saleDateWindow (o k).seasonDraw).2)
    (h : generate_sales numSales employees products o = some sales) :
    (∀ r : ℚ, (7 / 10 < r → saleDateWindow r = (-2, 0)) ∧
      (¬(7 / 10 < r) → saleDateWindow r = (-12, -2))) ∧
    ∀ s ∈ sales,
      (-2 ≤ s.sale_date ∧ s.sale_date ≤ 0) ∨
      (-12 ≤ s.sale_date ∧ s.sale_date ≤ -2) := by
  refine ⟨fun r =>
    ⟨fun hr => by simp [saleDateWindow, parseRelMonths, hr],
     fun hr => by simp [saleDateWindow, parseRelMonths, hr]⟩, ?_⟩
  intro s hs
  replace h : buildSales o
      (employees.filter (fun e => decide (e.department ∈ salesDepts)))
      (products.filter (fun q => q.is_active))
      ((List.range numSales).map (fun i => i + 1)) = some sales := h
  obtain ⟨i, _, hmk⟩ := buildSales_spec o _ _ _ sales h s hs
  obtain ⟨_, _, hdi⟩ := mkSale_spec hmk
  obtain ⟨h1, h2⟩ := hdate i
  by_cases hr : 7 / 10 < (o i).seasonDraw
  · left
    have hw : saleDateWindow (o i).seasonDraw = (-2, 0) := by
      simp [saleDateWindow, parseRelMonths, hr]
    rw [hw] at h1 h2
    rw [hdi]
    exact ⟨h1, h2⟩
  · right
    have hw : saleDateWindow (o i).seasonDraw = (-12, -2) := by
      simp [saleDateWindow, parseRelMonths, hr]
    rw [hw] at h1 h2
    rw [hdi]
    exact ⟨h1, h2⟩

/-- Witness for C7 (amended) at the concrete inputs: the generated
sale's date lies in one of the two windows. -/
theorem C7_witness :
    (-2 ≤ saleW.sale_date ∧ saleW.sale_date ≤ 0) ∨
    (-12 ≤ saleW.sale_date ∧ saleW.sale_date ≤ -2) :=
  (C7_amended 1 [empW] [prodW] (fun _ => drawW) [saleW]
    (fun _ => by norm_num [drawW, saleDateWindow, parseRelMonths])
    rfl).2 saleW (List.mem_singleton.2 rfl)

/-- Claim C9: with a non-empty product list containing no active product
and a positive sale count, `random.choice` over the empty active-product
list raises, so `generate_sales` fails to return (`none`); the analogous
empty case for Sales/Customer-Success employees is guarded and only
makes every `sales_rep_id` unset. -/
theorem C9_inactive_products (numSales : ℕ) (employees : List Employee)
    (products : List Product) (o : ℕ → SaleDraw) (hpos : 0 < numSales)
    (hne : products ≠ [])
    (hinact : ∀ q ∈ products, q.is_active = false) :
    generate_sales numSales employees products o = none ∧
    ∀ (employees2 : List Employee) (products2 : List Product)
      (sales : List Sale),
      employees2.filter (fun e => decide (e.department ∈ salesDepts)) =
        [] →
      generate_sales numSales employees2 products2 o = some sales →
      ∀ s ∈ sales, s.sales_rep_id = none := by
  constructor
  · have hap : products.filter (fun q => q.is_active) = [] :=
      List.filter_eq_nil_iff.2 (fun q hq => by simp [hinact q hq])
    obtain ⟨i, rest, hids⟩ : ∃ i rest,
        (List.range numSales).map (fun i => i + 1) = i :: rest := by
      cases hr : (List.range numSales).map (fun i => i + 1) with
      | nil =>
        exfalso
        have := congrArg List.length hr
        simp at this
        omega
      | cons a l => exact ⟨a, l, rfl⟩
    show buildSales o
      (employees.filter (fun e => decide (e.department ∈ salesDepts)))
      (products.filter (fun q => q.is_active))
      ((List.range numSales).map (fun i => i + 1)) = none
    rw [hap, hids]
    simp [buildSales, mkSale, pyChoice]
  · intro employees2 products2 sales hemp h s hs
    replace h : buildSales o
        (employees2.filter (fun e => decide (e.department ∈ salesDepts)))
        (products2.filter (fun q => q.is_active))
        ((List.range numSales).map (fun i => i + 1)) = some sales := h
    rw [hemp] at h
    obtain ⟨i, _, hmk⟩ := buildSales_spec o _ _ _ sales h s hs
    obtain ⟨_, hrep, _⟩ := mkSale_spec hmk
    rw [hrep]
    simp [pyChoice]

/-- Witness for C9 at concrete inputs: one inactive product, a positive
sale count. -/
theorem C9_witness :
    generate_sales 1 [empW] [prodInactive] (fun _ => drawW) = none :=
  (C9_inactive_products 1 [empW] [prodInactive] (fun _ => drawW)
    (by norm_num) (by simp) (by simp [prodInactive])).1

end EtlRepo
